import Mathlib

/-!
Verification development for the Pane Orchestration & Command Router of the
chat-llm repository (src/src/components/pane/Pane.tsx).

The embedding models JS strings as `List Char`. JS `String.prototype.split(' ')`
splits on single space characters keeping empty segments; `Array.prototype.join(' ')`
joins with single spaces; both are modelled structurally below. Pixel quantities
are modelled as exact rationals (ℚ); the source computes with JS doubles, whose
values at the inputs considered here are exact.
-/

set_option autoImplicit false

/-- The single space character that `messageDraft.split(' ')` splits on. -/
def spaceChar : Char := ' '

/-- The slash character that introduces a command draft. -/
def slashChar : Char := '/'

/-- The characters of the recognized command string, lowercase. -/
def newpaneChars : List Char := "/newpane".data

/-- JS `draft.startsWith('/')`: true iff the first character is a slash. -/
def startsWithSlash : List Char → Bool
  | [] => false
  | c :: _ => c = slashChar

/-- JS `s.split(' ')`: split on every single space character, keeping empty
segments. `jsSplit "a  b" = ["a", "", "b"]` and `jsSplit "" = [""]`. -/
def jsSplit : List Char → List (List Char)
  | [] => [[]]
  | c :: cs =>
    if c = spaceChar then
      [] :: jsSplit cs
    else
      match jsSplit cs with
      | [] => [[c]]
      | w :: ws => (c :: w) :: ws

/-- JS `parts.join(' ')`: interleave single spaces between the segments. -/
def joinSp : List (List Char) → List Char
  | [] => []
  | [w] => w
  | w :: ws => w ++ spaceChar :: joinSp ws

/-- Whitespace as removed by JS `String.prototype.trim` (ASCII portion; the
drafts considered here contain only ASCII). -/
def jsWhitespace (c : Char) : Bool :=
  c = ' ' || c = '\t' || c = '\n' || c = '\r' || c = '\x0b' || c = '\x0c'

/-- JS `s.trim()`: strip leading and trailing whitespace. Only its emptiness
test `content.trim() !== ''` is consulted by the source. -/
def jsTrim (cs : List Char) : List Char :=
  ((cs.dropWhile jsWhitespace).reverse.dropWhile jsWhitespace).reverse

/-- Outcome of interpreting a submitted draft, per the keydown handler in
`Pane.tsx`: ignore (empty draft), a `/newpane` command carrying its content,
or a plain message carrying the full draft text. -/
inductive SubmitAction where
  | ignore : SubmitAction
  | newPane (content : List Char) : SubmitAction
  | plain (text : List Char) : SubmitAction
deriving DecidableEq, Repr

/-- The command-parsing logic of the keydown handler in `Pane.tsx`:
`parts = messageDraft.split(' ')`, `command = parts[0].toLowerCase()`,
`content = parts.slice(1).join(' ')`; the `/newpane` branch is taken when
`command === '/newpane' && content.trim() !== ''`, and every other non-empty
draft falls through to normal (plain) message handling. -/
def parseSubmission (draft : List Char) : SubmitAction :=
  if draft = [] then .ignore
  else if startsWithSlash draft then
    let parts := jsSplit draft
    let command := (parts.headD []).map Char.toLower
    let content := joinSp (parts.drop 1)
    if command = newpaneChars ∧ jsTrim content ≠ [] then .newPane content
    else .plain draft
  else .plain draft

/-! ## Input Sizing Engine (the `useLayoutEffect` in `Pane.tsx`) -/

/-- Inputs of the sizing computation: the textarea's natural content height
(`scrollHeight` measured after `style.height = "auto"`), `window.innerHeight`,
and the result of `parseInt(getComputedStyle(textArea).lineHeight)`, where
`none` models `NaN` (an unparsable style such as `"normal"`). -/
structure SizingInput where
  scrollHeight : ℚ
  innerHeight : ℚ
  lineHeightRaw : Option Nat
deriving DecidableEq, Repr

/-- `parseInt(...) || 20`: the fallback of 20 px applies when the parse
yielded `NaN` (`none`) or `0`, both falsy in JS. -/
def resolveLineHeight (raw : Option Nat) : Nat :=
  match raw with
  | none => 20
  | some n => if n = 0 then 20 else n

/-- Outputs of the sizing computation: the pixel height written to
`style.height`, whether `style.overflowY` is `"auto"` (internal scrolling
enabled; `false` models `"hidden"`), and whether `style.transition` is the
smooth `"height 0.1s ease-out"` (`false` models `"none"`). -/
structure SizingOutput where
  height : ℚ
  overflowYAuto : Bool
  transition : Bool
deriving DecidableEq, Repr

/-- The sizing computation of the `useLayoutEffect` in `Pane.tsx`:
`maxSize = innerHeight / 2.5`, `minHeight = 55`,
`contentHeight = max(minHeight, scrollHeight)`; above `maxSize` the height is
clamped with scrolling and a smooth transition, otherwise `contentHeight` is
rounded up (`Math.ceil`) to a multiple of the line height with scrolling
hidden and no transition. -/
def computeSize (inp : SizingInput) : SizingOutput :=
  let maxSize : ℚ := inp.innerHeight / (5 / 2)
  let minHeight : ℚ := 55
  let lineHeight : ℚ := (resolveLineHeight inp.lineHeightRaw : ℕ)
  let contentHeight : ℚ := max minHeight inp.scrollHeight
  if contentHeight > maxSize then
    { height := maxSize, overflowYAuto := true, transition := true }
  else
    { height := ((⌈contentHeight / lineHeight⌉ : ℤ) : ℚ) * lineHeight,
      overflowYAuto := false, transition := false }

/-- Style state of the textarea element relevant to sizing. `heightPx = none`
models `style.height = "auto"`. -/
structure TextAreaStyle where
  heightPx : Option ℚ
  overflowYAuto : Bool
  transition : Bool
deriving DecidableEq, Repr

/-- The `scrollHeight` the browser reports for a textarea whose content needs
`naturalHeight` pixels: with `style.height = "auto"` it is the content height
itself; with a fixed height it is at least the client height. -/
def measuredScrollHeight (naturalHeight : ℚ) (st : TextAreaStyle) : ℚ :=
  match st.heightPx with
  | none => naturalHeight
  | some h => max h naturalHeight

/-- One run of the `useLayoutEffect` body as a transformer of the textarea
style: reset `style.height` to `"auto"`, measure `scrollHeight`, then apply
`computeSize` and write the resulting height/overflow/transition styles. -/
def resize (naturalHeight innerHeight : ℚ) (lineHeightRaw : Option Nat)
    (st : TextAreaStyle) : TextAreaStyle :=
  let stReset : TextAreaStyle := { st with heightPx := none }
  let out := computeSize ⟨measuredScrollHeight naturalHeight stReset, innerHeight, lineHeightRaw⟩
  { heightPx := some out.height, overflowYAuto := out.overflowYAuto,
    transition := out.transition }

/-! ## Keydown handler (submission orchestration in `Pane.tsx`) -/

/-- The fields of the keyboard event consulted by `onKeydown`. -/
structure KeyEvent where
  key : String
  shiftKey : Bool
  ctrlKey : Bool
  metaKey : Bool
  altKey : Bool
deriving DecidableEq, Repr

/-- The key name compared against `e.key`. -/
def enterKey : String := "Enter"

/-- The guard of the handler: `e.key === "Enter" && messageDraft !== "" &&
!e.shiftKey && !e.ctrlKey && !e.metaKey && !e.altKey`. -/
def isSubmission (e : KeyEvent) (draft : List Char) : Bool :=
  e.key == enterKey && draft != ([] : List Char) &&
    !e.shiftKey && !e.ctrlKey && !e.metaKey && !e.altKey

/-- Observable effects the handler performs, in program order.
`delayedSendMessage d cid content` models `setTimeout(() =>
dispatch(sendMessage(cid, content)), d)`: a send scheduled after a fixed
wall-clock delay of `d` milliseconds, not gated on any readiness signal. -/
inductive Effect where
  | preventDefault : Effect
  | setDraft (text : List Char) : Effect
  | dbAddConversation (presetId : Option Nat) : Effect
  | dispatchOpenConversation (conversationId : Nat) (openInNewPane : Bool) : Effect
  | delayedSendMessage (delayMs : Nat) (conversationId : Nat) (content : List Char) : Effect
  | dispatchSendMessage (conversationId : Nat) (content : List Char) : Effect
deriving DecidableEq, Repr

/-- The pane state read by the handler: the draft, the pane's bound
conversation id, and `conversation?.presetId` from the live query. -/
structure PaneState where
  messageDraft : List Char
  paneConversationId : Nat
  conversationPresetId : Option Nat
deriving DecidableEq, Repr

/-- Result of one handler invocation: the draft afterwards, the effects
performed in order, and `thrown = some e` when an awaited operation rejected
and the exception escaped the handler uncaught. -/
structure HandlerResult where
  messageDraft : List Char
  effects : List Effect
  thrown : Option String
deriving DecidableEq, Repr

/-- The `onKeydown` handler of `Pane.tsx`. `createResult` is the outcome of
`await db.addConversation(conversation?.presetId)`: `Except.ok cid` when the
promise resolves with the new conversation id, `Except.error e` when it
rejects. On the `/newpane` path the draft is cleared, creation is awaited,
the conversation is opened in a new pane, and the content send is deferred by
`setTimeout(..., 100)`; every other non-empty unmodified-Enter draft is sent
as-is to the pane's own conversation. There is no try/catch: a rejection
after the draft was cleared escapes the handler. -/
def onKeydown (st : PaneState) (e : KeyEvent) (createResult : Except String Nat) :
    HandlerResult :=
  if isSubmission e st.messageDraft then
    match parseSubmission st.messageDraft with
    | .newPane content =>
      match createResult with
      | .ok cid =>
        { messageDraft := [],
          effects := [.preventDefault, .setDraft [],
            .dbAddConversation st.conversationPresetId,
            .dispatchOpenConversation cid true,
            .delayedSendMessage 100 cid content],
          thrown := none }
      | .error err =>
        { messageDraft := [],
          effects := [.preventDefault, .setDraft [],
            .dbAddConversation st.conversationPresetId],
          thrown := some err }
    | _ =>
      { messageDraft := [],
        effects := [.preventDefault, .setDraft [],
          .dispatchSendMessage st.paneConversationId st.messageDraft],
        thrown := none }
  else
    { messageDraft := st.messageDraft, effects := [], thrown := none }

/-- The messages enqueued by a list of effects (immediate dispatches and
delayed `setTimeout` sends alike), as (conversation id, body) pairs. -/
def sentMessages : List Effect → List (Nat × List Char)
  | [] => []
  | Effect.dispatchSendMessage cid content :: es => (cid, content) :: sentMessages es
  | Effect.delayedSendMessage _ cid content :: es => (cid, content) :: sentMessages es
  | _ :: es => sentMessages es

/-- The panes opened by a list of effects. -/
def openedPanes : List Effect → List Nat
  | [] => []
  | Effect.dispatchOpenConversation cid true :: es => cid :: openedPanes es
  | _ :: es => openedPanes es


/-! ## Supporting lemmas -/

/-- `jsSplit` never returns the empty list of segments. -/
theorem jsSplit_ne_nil (cs : List Char) : jsSplit cs ≠ [] := by
  cases cs with
  | nil => simp [jsSplit]
  | cons c cs =>
    simp only [jsSplit]
    by_cases h : c = spaceChar
    · simp [h]
    · simp only [if_neg h]
      cases hsp : jsSplit cs <;> simp

/-- Joining the segments of a split with single spaces reconstructs the
original character list: `parts.slice(1).join(' ')` is exactly the text after
the first space. -/
theorem joinSp_jsSplit (cs : List Char) : joinSp (jsSplit cs) = cs := by
  induction cs with
  | nil => rfl
  | cons c cs ih =>
    by_cases h : c = spaceChar
    · subst h
      simp only [jsSplit, if_pos rfl]
      cases hsp : jsSplit cs with
      | nil => exact absurd hsp (jsSplit_ne_nil cs)
      | cons w ws =>
        rw [hsp] at ih
        simpa [joinSp] using ih
    · simp only [jsSplit, if_neg h]
      cases hsp : jsSplit cs with
      | nil => exact absurd hsp (jsSplit_ne_nil cs)
      | cons w ws =>
        rw [hsp] at ih
        cases ws with
        | nil => simpa [joinSp] using ih
        | cons w2 ws2 => simpa [joinSp] using ih

/-- Splitting a list whose head segment contains no space: the head segment
comes off whole at the first space. -/
theorem jsSplit_no_space (w rest : List Char) (h : spaceChar ∉ w) :
    jsSplit (w ++ spaceChar :: rest) = w :: jsSplit rest := by
  induction w with
  | nil => simp [jsSplit]
  | cons c cs ih =>
    have hc : c ≠ spaceChar := fun hc => h (hc ▸ List.mem_cons_self c cs)
    have h' : spaceChar ∉ cs := fun hm => h (List.mem_cons_of_mem c hm)
    simp only [List.cons_append, jsSplit, if_neg hc, List.append_eq]
    rw [ih h']

/-- The resolved line height (`parseInt(...) || 20`) is always positive. -/
theorem resolveLineHeight_pos (raw : Option Nat) : 0 < resolveLineHeight raw := by
  cases raw with
  | none => simp [resolveLineHeight]
  | some n =>
    by_cases h : n = 0 <;> simp [resolveLineHeight, h]
    exact Nat.pos_of_ne_zero h

/-- In the non-clamped branch (`contentHeight ≤ maxSize`) the sizing output is
the round-up branch of the computation. -/
theorem computeSize_of_le (inp : SizingInput)
    (h : max 55 inp.scrollHeight ≤ inp.innerHeight / (5 / 2)) :
    computeSize inp =
      { height := ((⌈max 55 inp.scrollHeight / (resolveLineHeight inp.lineHeightRaw : ℚ)⌉ : ℤ) : ℚ) *
          (resolveLineHeight inp.lineHeightRaw : ℚ),
        overflowYAuto := false, transition := false } := by
  simp only [computeSize]
  rw [if_neg (not_lt.mpr h)]

/-- In the clamped branch (`contentHeight > maxSize`) the sizing output is the
clamp to `innerHeight / 2.5` with scrolling and the smooth transition. -/
theorem computeSize_of_gt (inp : SizingInput)
    (h : inp.innerHeight / (5 / 2) < max 55 inp.scrollHeight) :
    computeSize inp =
      { height := inp.innerHeight / (5 / 2), overflowYAuto := true, transition := true } := by
  simp only [computeSize]
  rw [if_pos h]

/-- Rounding up to a multiple of a positive quantity does not go below the
value rounded. -/
theorem le_ceil_div_mul (c L : ℚ) (hL : 0 < L) : c ≤ ((⌈c / L⌉ : ℤ) : ℚ) * L := by
  have h1 : c / L ≤ ((⌈c / L⌉ : ℤ) : ℚ) := Int.le_ceil _
  calc c = c / L * L := (div_mul_cancel₀ c (ne_of_gt hL)).symm
    _ ≤ ((⌈c / L⌉ : ℤ) : ℚ) * L := mul_le_mul_of_nonneg_right h1 (le_of_lt hL)

/-- Rounding up to a multiple of a positive quantity overshoots by less than
one multiple. -/
theorem ceil_div_mul_lt (c L : ℚ) (hL : 0 < L) : ((⌈c / L⌉ : ℤ) : ℚ) * L < c + L := by
  have h1 : ((⌈c / L⌉ : ℤ) : ℚ) < c / L + 1 := Int.ceil_lt_add_one _
  calc ((⌈c / L⌉ : ℤ) : ℚ) * L < (c / L + 1) * L := mul_lt_mul_of_pos_right h1 hL
    _ = c + L := by field_simp

/-! ## Claim theorems -/

/-- Claim C2, counterexample: `parse("/newpane  hello world")` (two spaces
after the command) yields a `/newpane` command whose argument is
`" hello world"` — with a leading space — and not exactly `"hello world"` as
the claim states. -/
theorem c2_counterexample :
    parseSubmission ("/newpane  hello world".data) =
      SubmitAction.newPane (" hello world".data) ∧
    " hello world".data ≠ "hello world".data := by
  constructor
  · decide
  · decide

/-- Claim C2 as amended: the parser splits on single space characters (not
runs of whitespace); for a draft `cmd ++ ' ' ++ rest` whose command segment
contains no space and lowercases to `/newpane`, and whose remainder has a
non-whitespace character, the result is a `/newpane` command whose argument
is exactly the remainder after the first space, all interior and leading
spaces preserved. -/
theorem c2_split_on_single_space (cmd rest : List Char)
    (hslash : startsWithSlash cmd = true)
    (hnosp : spaceChar ∉ cmd)
    (hlower : cmd.map Char.toLower = newpaneChars)
    (htrim : jsTrim rest ≠ []) :
    parseSubmission (cmd ++ spaceChar :: rest) = SubmitAction.newPane rest := by
  have hne : cmd ++ spaceChar :: rest ≠ [] := by
    cases cmd <;> simp
  have hsl : startsWithSlash (cmd ++ spaceChar :: rest) = true := by
    cases cmd with
    | nil => simp [startsWithSlash] at hslash
    | cons c cs => simpa [startsWithSlash] using hslash
  have hsplit := jsSplit_no_space cmd rest hnosp
  simp only [parseSubmission, if_neg hne, hsl, if_true, hsplit, List.headD_cons,
    List.drop_succ_cons, List.drop_zero, joinSp_jsSplit, hlower]
  rw [if_pos ⟨trivial, htrim⟩]

/-- Claim C2 witness: the amended statement applied at the claim's own
example draft. -/
theorem c2_witness :
    parseSubmission ("/newpane  hello world".data) =
      SubmitAction.newPane (" hello world".data) := by
  have h := c2_split_on_single_space ("/newpane".data) (" hello world".data)
    (by decide) (by decide) (by decide) (by decide)
  have e : "/newpane".data ++ spaceChar :: " hello world".data =
      "/newpane  hello world".data := by decide
  rw [e] at h
  exact h

/-- Claim C5: a submission event (Enter, no modifiers) on an empty draft is
ignored — the parse outcome is `Ignore`, the handler performs no effects, and
the draft is untouched. -/
theorem c5_empty_draft_ignored (st : PaneState) (e : KeyEvent)
    (cr : Except String Nat)
    (hkey : e.key = enterKey) (hs : e.shiftKey = false) (hc : e.ctrlKey = false)
    (hm : e.metaKey = false) (ha : e.altKey = false)
    (hd : st.messageDraft = []) :
    parseSubmission st.messageDraft = SubmitAction.ignore ∧
    onKeydown st e cr = ⟨st.messageDraft, [], none⟩ := by
  constructor
  · rw [hd]; rfl
  · have hsub : isSubmission e st.messageDraft = false := by
      simp [isSubmission, hd]
    simp [onKeydown, hsub]

/-- Claim C5 witness. -/
theorem c5_witness :
    parseSubmission ([] : List Char) = SubmitAction.ignore ∧
    onKeydown ⟨[], 3, none⟩ ⟨enterKey, false, false, false, false⟩ (Except.ok 7) =
      ⟨[], [], none⟩ :=
  c5_empty_draft_ignored ⟨[], 3, none⟩ ⟨enterKey, false, false, false, false⟩
    (Except.ok 7) rfl rfl rfl rfl rfl rfl

/-- Claim C6, counterexample: the empty draft does not start with `/`, yet
submitting it enqueues no message at all, not exactly one message with the
empty body. -/
theorem c6_counterexample :
    startsWithSlash ([] : List Char) = false ∧
    sentMessages ((onKeydown ⟨[], 3, none⟩ ⟨enterKey, false, false, false, false⟩
      (Except.ok 7)).effects) = [] := by
  constructor
  · decide
  · decide

/-- Claim C6 as amended: for every NON-EMPTY draft that does not start with
`/`, submitting with Enter and no modifiers clears the draft to empty and
enqueues exactly one message whose body is exactly the draft (whitespace
preserved) to the pane's bound conversation. -/
theorem c6_plain_send (st : PaneState) (e : KeyEvent) (cr : Except String Nat)
    (hkey : e.key = enterKey) (hs : e.shiftKey = false) (hc : e.ctrlKey = false)
    (hm : e.metaKey = false) (ha : e.altKey = false)
    (hne : st.messageDraft ≠ [])
    (hslash : startsWithSlash st.messageDraft = false) :
    (onKeydown st e cr).messageDraft = [] ∧
    Effect.setDraft [] ∈ (onKeydown st e cr).effects ∧
    sentMessages (onKeydown st e cr).effects =
      [(st.paneConversationId, st.messageDraft)] := by
  have hsub : isSubmission e st.messageDraft = true := by
    simp [isSubmission, hkey, hs, hc, hm, ha, hne]
  have hparse : parseSubmission st.messageDraft = SubmitAction.plain st.messageDraft := by
    simp [parseSubmission, hne, hslash]
  simp [onKeydown, hsub, hparse, sentMessages]

/-- Claim C6 witness: a concrete plain draft with leading and trailing
whitespace is sent verbatim as the single enqueued message. -/
theorem c6_witness :
    (onKeydown ⟨" hi there ".data, 3, none⟩ ⟨enterKey, false, false, false, false⟩
      (Except.ok 7)).messageDraft = [] ∧
    Effect.setDraft [] ∈ (onKeydown ⟨" hi there ".data, 3, none⟩
      ⟨enterKey, false, false, false, false⟩ (Except.ok 7)).effects ∧
    sentMessages ((onKeydown ⟨" hi there ".data, 3, none⟩
      ⟨enterKey, false, false, false, false⟩ (Except.ok 7)).effects) =
      [(3, " hi there ".data)] :=
  c6_plain_send ⟨" hi there ".data, 3, none⟩ ⟨enterKey, false, false, false, false⟩
    (Except.ok 7) rfl rfl rfl rfl rfl (by decide) (by decide)

/-- Claim C7: every draft starting with `/` whose (lowercased) command is not
`/newpane`, or whose joined argument is empty after trimming, degrades to a
plain message carrying the original draft text unchanged. -/
theorem c7_slash_fallback (draft : List Char)
    (hslash : startsWithSlash draft = true)
    (hfall : ((jsSplit draft).headD []).map Char.toLower ≠ newpaneChars ∨
      jsTrim (joinSp ((jsSplit draft).drop 1)) = []) :
    parseSubmission draft = SubmitAction.plain draft := by
  have hne : draft ≠ [] := by
    cases draft with
    | nil => simp [startsWithSlash] at hslash
    | cons c cs => simp
  simp only [parseSubmission, if_neg hne, hslash, if_true]
  rw [if_neg]
  rcases hfall with h | h
  · exact fun hab => h hab.1
  · exact fun hab => hab.2 h

/-- Claim C7 witness: the three example drafts of the claim — an unknown
command, `/newpane` with no argument, and `/newpane` followed only by
spaces — all fall back to the original text. -/
theorem c7_witness :
    parseSubmission ("/unknowncmd foo".data) =
      SubmitAction.plain ("/unknowncmd foo".data) ∧
    parseSubmission ("/newpane".data) = SubmitAction.plain ("/newpane".data) ∧
    parseSubmission ("/newpane   ".data) = SubmitAction.plain ("/newpane   ".data) :=
  ⟨c7_slash_fallback ("/unknowncmd foo".data) (by decide) (Or.inl (by decide)),
   c7_slash_fallback ("/newpane".data) (by decide) (Or.inr (by decide)),
   c7_slash_fallback ("/newpane   ".data) (by decide) (Or.inr (by decide))⟩

/-- Claim C1 (code bug): on a successful `/newpane buy milk` submission the
handler does not wait for any readiness confirmation before delivery — it
schedules the content send with a fixed 100 ms `setTimeout` immediately after
dispatching the pane open, i.e. a constant wall-clock delay is the only
synchronization between creation and send. -/
theorem c1_fixed_delay_send :
    onKeydown ⟨"/newpane buy milk".data, 3, some 5⟩
      ⟨enterKey, false, false, false, false⟩ (Except.ok 7) =
    ⟨[], [Effect.preventDefault, Effect.setDraft [],
      Effect.dbAddConversation (some 5), Effect.dispatchOpenConversation 7 true,
      Effect.delayedSendMessage 100 7 ("buy milk".data)], none⟩ ∧
    Effect.delayedSendMessage 100 7 ("buy milk".data) ∈
      (onKeydown ⟨"/newpane buy milk".data, 3, some 5⟩
        ⟨enterKey, false, false, false, false⟩ (Except.ok 7)).effects := by
  constructor
  · decide
  · decide

/-- Claim C8 (code bug): when conversation creation rejects during
`/newpane hi`, no pane is opened and no message is sent — but the draft has
already been cleared and the rejection escapes the handler uncaught
(`thrown`), with no effect that surfaces a failed-command error near the
invoking pane. -/
theorem c8_create_failure :
    onKeydown ⟨"/newpane hi".data, 3, some 2⟩
      ⟨enterKey, false, false, false, false⟩ (Except.error ("db failure")) =
    ⟨[], [Effect.preventDefault, Effect.setDraft [],
      Effect.dbAddConversation (some 2)], some ("db failure")⟩ ∧
    sentMessages ((onKeydown ⟨"/newpane hi".data, 3, some 2⟩
      ⟨enterKey, false, false, false, false⟩ (Except.error ("db failure"))).effects) = [] ∧
    openedPanes ((onKeydown ⟨"/newpane hi".data, 3, some 2⟩
      ⟨enterKey, false, false, false, false⟩ (Except.error ("db failure"))).effects) = [] := by
  refine ⟨?_, ?_, ?_⟩ <;> decide

/-- Claim C3, counterexample: with the fallback 20 px line height and an
800 px viewport, an empty draft (natural content height 40 ≤ 55) yields a
height of 60 px — `Math.ceil(55 / 20) * 20` — not exactly 55 px as the claim
states. -/
theorem c3_counterexample :
    computeSize ⟨40, 800, some 20⟩ = ⟨60, false, false⟩ ∧ (60 : ℚ) ≠ 55 := by
  constructor
  · have h : (⌈(11:ℚ) / 4⌉ : ℤ) = 3 := by rw [Int.ceil_eq_iff]; norm_num
    norm_num [computeSize, resolveLineHeight, h]
  · norm_num

/-- Claim C3 as amended: with an empty draft (natural content height at most
the 55 px minimum) and the minimum below the clamp threshold, the height is
the 55 px minimum rounded UP to a multiple of the line height (so exactly 55
only when the line height divides 55), and internal scrolling is disabled
with no transition. -/
theorem c3_empty_draft_height (sh ih : ℚ) (raw : Option Nat)
    (hsh : sh ≤ 55) (hmax : (55:ℚ) ≤ ih / (5 / 2)) :
    computeSize ⟨sh, ih, raw⟩ =
      { height := ((⌈(55:ℚ) / (resolveLineHeight raw : ℚ)⌉ : ℤ) : ℚ) *
          (resolveLineHeight raw : ℚ),
        overflowYAuto := false, transition := false } := by
  simp only [computeSize]
  rw [max_eq_left hsh]
  rw [if_neg (not_lt.mpr hmax)]

/-- Claim C3 witness. -/
theorem c3_witness :
    computeSize ⟨40, 800, some 20⟩ =
      { height := ((⌈(55:ℚ) / (resolveLineHeight (some 20) : ℚ)⌉ : ℤ) : ℚ) *
          (resolveLineHeight (some 20) : ℚ),
        overflowYAuto := false, transition := false } :=
  c3_empty_draft_height 40 800 (some 20) (by norm_num) (by norm_num)

/-- Claim C4, counterexample: a natural content height of
`minHeight + 0.3 * lineHeight = 55 + 6 = 61` (line height 20, viewport 800,
non-clamped) yields a height of 80 = `Math.ceil(61 / 20) * 20`, not
`minHeight + 1 * lineHeight = 75`: the round-up is to an absolute multiple of
the line height, not to `minHeight` plus a multiple. -/
theorem c4_counterexample :
    (55 : ℚ) + (3 / 10) * 20 = 61 ∧
    computeSize ⟨61, 800, some 20⟩ = ⟨80, false, false⟩ ∧
    (80 : ℚ) ≠ 55 + 1 * 20 := by
  refine ⟨by norm_num, ?_, by norm_num⟩
  have h : (⌈(61:ℚ) / 20⌉ : ℤ) = 4 := by rw [Int.ceil_eq_iff]; norm_num
  norm_num [computeSize, resolveLineHeight, h]

/-- Claim C4 as amended: in the non-clamped branch the height is the target
(`max 55 scrollHeight`) rounded up to the next multiple of the line height
counted from zero: it is an integer multiple of the line height, at least the
target, and overshoots the target by less than one line height. -/
theorem c4_round_up_to_line_multiple (inp : SizingInput)
    (h : max 55 inp.scrollHeight ≤ inp.innerHeight / (5 / 2)) :
    ∃ k : ℤ,
      (computeSize inp).height = (k : ℚ) * (resolveLineHeight inp.lineHeightRaw : ℚ) ∧
      max 55 inp.scrollHeight ≤ (computeSize inp).height ∧
      (computeSize inp).height <
        max 55 inp.scrollHeight + (resolveLineHeight inp.lineHeightRaw : ℚ) := by
  have hL : (0:ℚ) < (resolveLineHeight inp.lineHeightRaw : ℚ) := by
    exact_mod_cast resolveLineHeight_pos inp.lineHeightRaw
  rw [computeSize_of_le inp h]
  exact ⟨⌈max 55 inp.scrollHeight / (resolveLineHeight inp.lineHeightRaw : ℚ)⌉,
    rfl, le_ceil_div_mul _ _ hL, ceil_div_mul_lt _ _ hL⟩

/-- Claim C4 witness: the amended statement applied at the claim's example
input (natural height 61 = 55 + 0.3·20). -/
theorem c4_witness :
    ∃ k : ℤ,
      (computeSize ⟨61, 800, some 20⟩).height =
        (k : ℚ) * (resolveLineHeight (some 20) : ℚ) ∧
      max 55 (61:ℚ) ≤ (computeSize ⟨61, 800, some 20⟩).height ∧
      (computeSize ⟨61, 800, some 20⟩).height <
        max 55 (61:ℚ) + (resolveLineHeight (some 20) : ℚ) :=
  c4_round_up_to_line_multiple ⟨61, 800, some 20⟩ (by norm_num [max_le_iff])

/-- Claim C9: the sizing computation is idempotent as a transformer of the
textarea style — because it first resets the height to `"auto"` before
measuring, a second run with the same draft, viewport and line height
produces the identical height, scroll mode and transition flag. -/
theorem c9_sizing_idempotent (naturalHeight innerHeight : ℚ)
    (lineHeightRaw : Option Nat) (st : TextAreaStyle) :
    resize naturalHeight innerHeight lineHeightRaw
      (resize naturalHeight innerHeight lineHeightRaw st) =
    resize naturalHeight innerHeight lineHeightRaw st := rfl

/-- Claim C10: an unparsable (`NaN`) or zero computed line-height style falls
back to 20 px, the resolved line height is always positive, and (for a
positive viewport) the computed height is always positive. -/
theorem c10_line_height_fallback (inp : SizingInput)
    (hih : 0 < inp.innerHeight) :
    resolveLineHeight none = 20 ∧
    resolveLineHeight (some 0) = 20 ∧
    0 < resolveLineHeight inp.lineHeightRaw ∧
    0 < (computeSize inp).height := by
  refine ⟨rfl, rfl, resolveLineHeight_pos _, ?_⟩
  by_cases h : inp.innerHeight / (5 / 2) < max 55 inp.scrollHeight
  · rw [computeSize_of_gt inp h]
    exact div_pos hih (by norm_num)
  · have hle := not_lt.mp h
    have hL : (0:ℚ) < (resolveLineHeight inp.lineHeightRaw : ℚ) := by
      exact_mod_cast resolveLineHeight_pos inp.lineHeightRaw
    rw [computeSize_of_le inp hle]
    calc (0:ℚ) < 55 := by norm_num
      _ ≤ max 55 inp.scrollHeight := le_max_left _ _
      _ ≤ _ := le_ceil_div_mul _ _ hL

/-- Claim C10 witness: an unparsable line height with a 100 px viewport. -/
theorem c10_witness :
    resolveLineHeight none = 20 ∧
    resolveLineHeight (some 0) = 20 ∧
    0 < resolveLineHeight ((⟨0, 100, none⟩ : SizingInput)).lineHeightRaw ∧
    0 < (computeSize ⟨0, 100, none⟩).height :=
  c10_line_height_fallback ⟨0, 100, none⟩ (by norm_num)
